import Mathlib

/-!
Shallow embedding of `cli/server/auth.go` (package `server` of fabric-cop):
the handler factory (`NewAuthWrapper`, `newBasicAuthHandler`,
`newTokenAuthHandler`, `newAuthHandler`, `wrappedPath`) and the
request-authentication gate (`copAuthHandler.ServeHTTP` delegating to
`copAuthHandler.serveHTTP`), together with theorems settling the
specification claims about the endpoint-to-policy mapping, the
authentication-disabled bypass, credential-form classification, the
revocation-status gate, error uniformity and request-body restoration.

External capabilities consumed by the gate (the `CFG` global, Go's
`(*http.Request).BasicAuth`, `util.VerifyToken`, the user registry's
`LoginUserBasicAuth` and the certificate store's `GetCertificate`) are
modelled as fields of an environment record `Env`; the gate's own control
flow is translated branch by branch from the source.
-/

namespace CopAuth

/-- Stand-in for a Go `http.Handler` interface value used as the `next`
handler in the chain; only its identity matters to the claims, never its
own behavior. -/
structure HttpHandler where
  id : Nat
deriving DecidableEq, Repr

/-- Error values observable at the gate boundary.
`authError` embeds the package-level
`var authError = cerr.NewBadRequest(errors.New("authorization failure"))`
of auth.go. Modelled from the spec: `errNoAuthHdr` (the spec's
`MissingAuthHeader`) and `errBasicAuthNotAllowed` (the spec's
`DisallowedCredentialForm` / `BasicAuthNotAllowed`) are package-level
error values whose definitions live outside this source file; the spec
fixes only that they are distinct rejection values. `registryError`
embeds an arbitrary error value produced by the external User Registry's
`LoginUserBasicAuth`, identified by its message. -/
inductive GoError where
  | errNoAuthHdr
  | errBasicAuthNotAllowed
  | authError
  | registryError (msg : String)
deriving DecidableEq, Repr

/-- The two fields the gate reads from the verified signer certificate
(Go `x509.Certificate`): `SerialNumber` (a nonnegative big integer,
rendered in decimal by `SerialNumber.String()`) and `AuthorityKeyId`
(a byte slice, each byte below 256). -/
structure Certificate where
  serialNumber : Nat
  authorityKeyId : List Nat
deriving DecidableEq, Repr

/-- A certificate-store record as seen by the gate: only its `Status`
field is consulted. -/
structure CertRecord where
  status : String
deriving DecidableEq, Repr

instance {ε α : Type} [DecidableEq ε] [DecidableEq α] : DecidableEq (Except ε α) :=
  fun x y =>
    match x, y with
    | Except.ok a, Except.ok b =>
      if h : a = b then isTrue (by rw [h]) else isFalse (by simp [h])
    | Except.error a, Except.error b =>
      if h : a = b then isTrue (by rw [h]) else isFalse (by simp [h])
    | Except.ok _, Except.error _ => isFalse (by simp)
    | Except.error _, Except.ok _ => isFalse (by simp)

/-- State of a request body stream: `content` is what `ioutil.ReadAll`
yields on the fresh stream (the byte sequence, or a read error whose
content the gate never inspects), and `consumed` records whether the
stream has already been read. -/
structure Body where
  content : Except Unit (List Nat)
  consumed : Bool
deriving DecidableEq, Repr

/-- The parts of an `http.Request` the gate touches: the value of the
`authorization` header (`""` when the header is absent, exactly as
returned by `r.Header.Get`) and the body stream `r.Body`, which the Go
code mutates in place. -/
structure Request where
  authHdr : String
  body : Body
deriving DecidableEq, Repr

/-- The external capabilities the gate consumes: the global configuration
`CFG` (its `Authentication` flag, `UserRegistry` and `certDBAccessor`),
Go's `r.BasicAuth()` parsing of the authorization header, and
`util.VerifyToken`. Errors from `VerifyToken` and `GetCertificate` are
mapped by the gate to `authError` without their content being read, so
they carry none here; the registry's login error is returned by the gate
verbatim, so it carries a `GoError`. -/
structure Env where
  Authentication : Bool
  BasicAuth : String → Option (String × String)
  LoginUserBasicAuth : String → String → Except GoError Unit
  VerifyToken : String → List Nat → Except Unit Certificate
  GetCertificate : String → String → Except Unit (List CertRecord)

/-- Go struct `copAuthHandler`: the policy flags fixed at construction
and the next handler in the chain. -/
structure copAuthHandler where
  basic : Bool
  token : Bool
  next : HttpHandler
deriving DecidableEq, Repr

/-- One lowercase hexadecimal digit, as produced by Go `encoding/hex`'s
table `"0123456789abcdef"`. -/
def hexDigit (n : Nat) : Char :=
  if n < 10 then Char.ofNat (48 + n) else Char.ofNat (87 + n)

/-- Go `hex.EncodeToString` on a byte slice: two lowercase hex digits per
byte, high nibble first (bytes are below 256, so `b / 16 % 16` is the
high nibble). -/
def hexEncodeToString (bs : List Nat) : String :=
  String.mk (bs.foldr (fun b acc => hexDigit (b / 16 % 16) :: hexDigit (b % 16) :: acc) [])

/-- Go `wrappedPath`. -/
def wrappedPath (path : String) : String :=
  "/api/v1/cfssl/" ++ path

/-- Go `newAuthHandler`: a non-nil construction error is returned as is,
with a nil handler; otherwise the gate is built bound to the given policy
flags and next handler. -/
def newAuthHandler (basic token : Bool) (handler : HttpHandler)
    (errArg : Option GoError) : Option copAuthHandler × Option GoError :=
  match errArg with
  | some e => (none, some e)
  | none => (some { basic := basic, token := token, next := handler }, none)

/-- Go `newBasicAuthHandler`. -/
def newBasicAuthHandler (handler : HttpHandler) (errArg : Option GoError) :
    Option copAuthHandler × Option GoError :=
  newAuthHandler true false handler errArg

/-- Go `newTokenAuthHandler`. -/
def newTokenAuthHandler (handler : HttpHandler) (errArg : Option GoError) :
    Option copAuthHandler × Option GoError :=
  newAuthHandler false true handler errArg

/-- Go `NewAuthWrapper`: the paths `"sign"` and `"enroll"` get the
basic-auth gate, every other path the token gate; the returned route is
the wrapped path in both cases. -/
def NewAuthWrapper (path : String) (handler : HttpHandler)
    (err : Option GoError) : String × Option copAuthHandler × Option GoError :=
  if path = "sign" ∨ path = "enroll" then
    let he := newBasicAuthHandler handler err
    (wrappedPath path, he.1, he.2)
  else
    let he := newTokenAuthHandler handler err
    (wrappedPath path, he.1, he.2)

/-- Go `copAuthHandler.serveHTTP`: the per-request authentication
decision, translated branch by branch. Returns the rejection error
(`none` means forward) together with the request as the Go code leaves it
(the token path reassigns `r.Body`). -/
def copAuthHandler.serveHTTP (ah : copAuthHandler) (env : Env) (r : Request) :
    Option GoError × Request :=
  if env.Authentication = false then (none, r)
  else if r.authHdr = "" then (some GoError.errNoAuthHdr, r)
  else
    match env.BasicAuth r.authHdr with
    | some (user, pwd) =>
      if ah.basic = false then (some GoError.errBasicAuthNotAllowed, r)
      else
        match env.LoginUserBasicAuth user pwd with
        | Except.error e => (some e, r)
        | Except.ok _ => (none, r)
    | none =>
      if ah.token = true then
        match r.body.content with
        | Except.error _ =>
            (some GoError.authError, { r with body := { r.body with consumed := true } })
        | Except.ok bodyBytes =>
          let r1 : Request :=
            { r with body := { content := Except.ok bodyBytes, consumed := false } }
          match env.VerifyToken r.authHdr bodyBytes with
          | Except.error _ => (some GoError.authError, r1)
          | Except.ok cert =>
            let serial := toString cert.serialNumber
            let aki := hexEncodeToString cert.authorityKeyId
            match env.GetCertificate serial aki with
            | Except.error _ => (some GoError.authError, r1)
            | Except.ok certs =>
              match certs with
              | [c] =>
                if c.status ≠ "good" then (some GoError.authError, r1)
                else (none, r1)
              | _ => (some GoError.authError, r1)
      else (none, r)

/-- Externally observable outcome of Go `copAuthHandler.ServeHTTP`:
either the next handler is invoked with the (possibly body-reassigned)
request, or an error response is written and the next handler is never
invoked. -/
inductive Outcome where
  | forwarded (r : Request)
  | rejected (e : GoError)
deriving DecidableEq, Repr

/-- Go `copAuthHandler.ServeHTTP`: forward to `next` exactly when
`serveHTTP` reports no error, otherwise hand the error to the response
writer. -/
def copAuthHandler.ServeHTTP (ah : copAuthHandler) (env : Env) (r : Request) :
    Outcome :=
  match ah.serveHTTP env r with
  | (some e, _) => Outcome.rejected e
  | (none, r1) => Outcome.forwarded r1

/-- A fixed next handler used in concrete evaluations. -/
def hNext : HttpHandler := { id := 0 }

/-- The basic-auth gate exactly as the factory builds it for the "sign"
and "enroll" endpoints. -/
def ahBasic : copAuthHandler := { basic := true, token := false, next := hNext }

/-- The token gate exactly as the factory builds it for every other
endpoint. -/
def ahToken : copAuthHandler := { basic := false, token := true, next := hNext }

/-- A concrete environment: authentication on, one registered basic
credential alice / s3cret, one verifiable token header "token-ok"
yielding the certificate with serial 7 and authority-key-id byte 10, and
a store holding exactly one record with status "good" under the lookup
key ("7", "0a"). -/
def envGood : Env where
  Authentication := true
  BasicAuth := fun h =>
    if h = "Basic YWxpY2U6czNjcmV0" then some ("alice", "s3cret") else none
  LoginUserBasicAuth := fun u p =>
    if u = "alice" ∧ p = "s3cret" then Except.ok ()
    else Except.error (GoError.registryError "login failure")
  VerifyToken := fun h _ =>
    if h = "token-ok" then Except.ok { serialNumber := 7, authorityKeyId := [10] }
    else Except.error ()
  GetCertificate := fun s a =>
    if s = "7" ∧ a = "0a" then Except.ok [{ status := "good" }] else Except.error ()

/-- `envGood` with authentication globally disabled. -/
def envOff : Env := { envGood with Authentication := false }

/-- `envGood` with a registry that rejects every login with its own error
value, and a store whose single record under ("7", "0a") is revoked. -/
def envReject : Env :=
  { envGood with
    LoginUserBasicAuth := fun _ _ => Except.error (GoError.registryError "user not found")
    GetCertificate := fun s a =>
      if s = "7" ∧ a = "0a" then Except.ok [{ status := "revoked" }] else Except.error () }

/-- The certificate the token header "token-ok" of `envGood` verifies
to. -/
def certOk : Certificate := { serialNumber := 7, authorityKeyId := [10] }

/-- A request presenting the registered basic credential. -/
def reqBasicOk : Request :=
  { authHdr := "Basic YWxpY2U6czNjcmV0"
    body := { content := Except.ok [1, 2], consumed := false } }

/-- A request presenting the verifiable token over body bytes [1, 2, 3]. -/
def reqTokenOk : Request :=
  { authHdr := "token-ok"
    body := { content := Except.ok [1, 2, 3], consumed := false } }

/-- A request with no authorization header. -/
def reqNoHdr : Request :=
  { authHdr := ""
    body := { content := Except.ok [], consumed := false } }

/-- A request whose authorization header does not parse as HTTP Basic
credentials. -/
def reqBearer : Request :=
  { authHdr := "Bearer xyz"
    body := { content := Except.ok [5], consumed := false } }

/-- C4: for every endpoint name the factory selects the BasicOnly policy
(basic flag on, token flag off) exactly when the name is "sign" or
"enroll", and the TokenOnly policy for every other name; in all cases it
returns a constructed gate wrapping the given next handler under the
wrapped path, so no endpoint is left unauthenticated. -/
theorem NewAuthWrapper_policy_exhaustive (path : String) (h : HttpHandler) :
    ∃ ah : copAuthHandler,
      NewAuthWrapper path h none = ("/api/v1/cfssl/" ++ path, some ah, none) ∧
      ah.next = h ∧
      ((ah.basic = true ∧ ah.token = false) ↔ (path = "sign" ∨ path = "enroll")) ∧
      ((ah.basic = false ∧ ah.token = true) ↔ ¬ (path = "sign" ∨ path = "enroll")) ∧
      (ah.basic = true ∨ ah.token = true) := by
  by_cases hp : path = "sign" ∨ path = "enroll"
  · refine ⟨{ basic := true, token := false, next := h }, ?_, rfl, ?_, ?_, Or.inl rfl⟩
    · simp [NewAuthWrapper, hp, newBasicAuthHandler, newAuthHandler, wrappedPath]
    · simp [hp]
    · simp [hp]
  · refine ⟨{ basic := false, token := true, next := h }, ?_, rfl, ?_, ?_, Or.inr rfl⟩
    · simp [NewAuthWrapper, hp, newTokenAuthHandler, newAuthHandler, wrappedPath]
    · simp [hp]
    · simp [hp]

/-- Witness for the endpoint-to-policy mapping at the concrete endpoint
"enroll". -/
theorem NewAuthWrapper_policy_exhaustive_witness :
    ∃ ah : copAuthHandler,
      NewAuthWrapper "enroll" hNext none = ("/api/v1/cfssl/" ++ "enroll", some ah, none) ∧
      ah.next = hNext ∧
      ((ah.basic = true ∧ ah.token = false) ↔ ("enroll" = "sign" ∨ "enroll" = "enroll")) ∧
      ((ah.basic = false ∧ ah.token = true) ↔ ¬ ("enroll" = "sign" ∨ "enroll" = "enroll")) ∧
      (ah.basic = true ∨ ah.token = true) :=
  NewAuthWrapper_policy_exhaustive "enroll" hNext

/-- C8: a non-nil construction error is returned by the factory as is,
with no gate constructed — the handler component of the result is nil. -/
theorem NewAuthWrapper_propagates_error (path : String) (h : HttpHandler)
    (e : GoError) :
    NewAuthWrapper path h (some e) = (wrappedPath path, none, some e) := by
  unfold NewAuthWrapper newBasicAuthHandler newTokenAuthHandler newAuthHandler
  split <;> rfl

/-- Witness for construction-error propagation at a concrete endpoint and
error. -/
theorem NewAuthWrapper_propagates_error_witness :
    NewAuthWrapper "info" hNext (some GoError.authError) =
      (wrappedPath "info", none, some GoError.authError) :=
  NewAuthWrapper_propagates_error "info" hNext GoError.authError

/-- C5: with authentication disabled the gate forwards every request
unchanged to the next handler — the result does not depend on the
authorization header or on any credential parsing, including when the
header is absent or malformed. -/
theorem authDisabled_forwards (env : Env) (ah : copAuthHandler) (r : Request)
    (hdis : env.Authentication = false) :
    ah.serveHTTP env r = (none, r) ∧ ah.ServeHTTP env r = Outcome.forwarded r := by
  have h1 : ah.serveHTTP env r = (none, r) := by
    simp [copAuthHandler.serveHTTP, hdis]
  exact ⟨h1, by simp [copAuthHandler.ServeHTTP, h1]⟩

/-- Witness: with authentication off, a request with an absent
authorization header is forwarded untouched. -/
theorem authDisabled_forwards_witness :
    envOff.Authentication = false ∧ reqNoHdr.authHdr = "" ∧
    (ahToken.serveHTTP envOff reqNoHdr = (none, reqNoHdr) ∧
     ahToken.ServeHTTP envOff reqNoHdr = Outcome.forwarded reqNoHdr) :=
  ⟨rfl, rfl, authDisabled_forwards envOff ahToken reqNoHdr rfl⟩

/-- C6: on a token-only route, with authentication enabled, a header that
parses as a well-formed basic credential is rejected with the
BasicAuthNotAllowed error; the registry is never consulted — the
statement holds for every environment, in particular one whose registry
would accept the credential. -/
theorem tokenRoute_basicCredential_rejected (env : Env) (ah : copAuthHandler)
    (r : Request) (u p : String)
    (hb : ah.basic = false) (ha : env.Authentication = true)
    (hh : r.authHdr ≠ "") (hp : env.BasicAuth r.authHdr = some (u, p)) :
    ah.ServeHTTP env r = Outcome.rejected GoError.errBasicAuthNotAllowed ∧
    ah.serveHTTP env r = (some GoError.errBasicAuthNotAllowed, r) := by
  have h1 : ah.serveHTTP env r = (some GoError.errBasicAuthNotAllowed, r) := by
    simp [copAuthHandler.serveHTTP, ha, hh, hp, hb]
  exact ⟨by simp [copAuthHandler.ServeHTTP, h1], h1⟩

/-- Witness: the token gate rejects the registered basic credential with
BasicAuthNotAllowed even though the registry accepts that very
credential. -/
theorem tokenRoute_basicCredential_rejected_witness :
    envGood.LoginUserBasicAuth "alice" "s3cret" = Except.ok () ∧
    (ahToken.ServeHTTP envGood reqBasicOk = Outcome.rejected GoError.errBasicAuthNotAllowed ∧
     ahToken.serveHTTP envGood reqBasicOk = (some GoError.errBasicAuthNotAllowed, reqBasicOk)) :=
  ⟨by decide,
   tokenRoute_basicCredential_rejected envGood ahToken reqBasicOk "alice" "s3cret"
     rfl rfl (by decide) (by decide)⟩

/-- C7: on a basic-only route, with authentication enabled, a well-formed
basic credential is forwarded exactly when the registry's login accepts
it, and a login error e becomes the rejection, the next handler not being
invoked. -/
theorem basicRoute_forwards_iff_login (env : Env) (ah : copAuthHandler)
    (r : Request) (u p : String)
    (hb : ah.basic = true) (ha : env.Authentication = true)
    (hh : r.authHdr ≠ "") (hp : env.BasicAuth r.authHdr = some (u, p)) :
    (ah.ServeHTTP env r = Outcome.forwarded r ↔
      env.LoginUserBasicAuth u p = Except.ok ()) ∧
    (∀ e, env.LoginUserBasicAuth u p = Except.error e →
      ah.ServeHTTP env r = Outcome.rejected e) := by
  cases hl : env.LoginUserBasicAuth u p with
  | ok v =>
    cases v
    have h1 : ah.serveHTTP env r = (none, r) := by
      simp [copAuthHandler.serveHTTP, ha, hh, hp, hb, hl]
    constructor
    · simp [copAuthHandler.ServeHTTP, h1, hl]
    · intro e he
      exact absurd he (by simp)
  | error e0 =>
    have h1 : ah.serveHTTP env r = (some e0, r) := by
      simp [copAuthHandler.serveHTTP, ha, hh, hp, hb, hl]
    constructor
    · simp [copAuthHandler.ServeHTTP, h1, hl]
    · intro e he
      injection he with h2
      subst h2
      simp [copAuthHandler.ServeHTTP, h1]

/-- Witness: the registered credential on the basic gate is forwarded,
matching the registry's acceptance. -/
theorem basicRoute_forwards_iff_login_witness :
    (ahBasic.ServeHTTP envGood reqBasicOk = Outcome.forwarded reqBasicOk ↔
      envGood.LoginUserBasicAuth "alice" "s3cret" = Except.ok ()) ∧
    (∀ e, envGood.LoginUserBasicAuth "alice" "s3cret" = Except.error e →
      ahBasic.ServeHTTP envGood reqBasicOk = Outcome.rejected e) :=
  basicRoute_forwards_iff_login envGood ahBasic reqBasicOk "alice" "s3cret"
    rfl rfl (by decide) (by decide)

/-- C2: on a token-only route whose token verifies to a certificate, the
gate forwards exactly when the store lookup keyed by the certificate's
decimal serial and hex-encoded authority key id returns exactly one
record whose status is "good"; in every other case — lookup error, zero
records, two or more records, or a single record with another status —
the gate rejects with the generic authError. -/
theorem tokenRoute_revocation_gate (env : Env) (ah : copAuthHandler)
    (r : Request) (bs : List Nat) (cert : Certificate)
    (hb : ah.basic = false) (ht : ah.token = true)
    (ha : env.Authentication = true) (hh : r.authHdr ≠ "")
    (hp : env.BasicAuth r.authHdr = none)
    (hbody : r.body.content = Except.ok bs)
    (hv : env.VerifyToken r.authHdr bs = Except.ok cert) :
    ((∃ r1, ah.ServeHTTP env r = Outcome.forwarded r1) ↔
      (∃ rec, env.GetCertificate (toString cert.serialNumber)
          (hexEncodeToString cert.authorityKeyId) = Except.ok [rec] ∧
        rec.status = "good")) ∧
    ((¬ ∃ rec, env.GetCertificate (toString cert.serialNumber)
          (hexEncodeToString cert.authorityKeyId) = Except.ok [rec] ∧
        rec.status = "good") →
      ah.ServeHTTP env r = Outcome.rejected GoError.authError) := by
  cases hg : env.GetCertificate (toString cert.serialNumber)
      (hexEncodeToString cert.authorityKeyId) with
  | error e =>
    simp [copAuthHandler.ServeHTTP, copAuthHandler.serveHTTP,
      ha, hh, hp, ht, hbody, hv, hg]
  | ok certs =>
    match certs with
    | [] =>
      simp [copAuthHandler.ServeHTTP, copAuthHandler.serveHTTP,
        ha, hh, hp, ht, hbody, hv, hg]
    | [c] =>
      by_cases hst : c.status = "good"
      · simp [copAuthHandler.ServeHTTP, copAuthHandler.serveHTTP,
          ha, hh, hp, ht, hbody, hv, hg, hst]
      · simp [copAuthHandler.ServeHTTP, copAuthHandler.serveHTTP,
          ha, hh, hp, ht, hbody, hv, hg, hst]
    | c :: c2 :: t =>
      simp [copAuthHandler.ServeHTTP, copAuthHandler.serveHTTP,
        ha, hh, hp, ht, hbody, hv, hg]

/-- Witness: the concrete verifiable token against the store holding one
good record under ("7", "0a"). -/
theorem tokenRoute_revocation_gate_witness :
    ((∃ r1, ahToken.ServeHTTP envGood reqTokenOk = Outcome.forwarded r1) ↔
      (∃ rec, envGood.GetCertificate (toString certOk.serialNumber)
          (hexEncodeToString certOk.authorityKeyId) = Except.ok [rec] ∧
        rec.status = "good")) ∧
    ((¬ ∃ rec, envGood.GetCertificate (toString certOk.serialNumber)
          (hexEncodeToString certOk.authorityKeyId) = Except.ok [rec] ∧
        rec.status = "good") →
      ahToken.ServeHTTP envGood reqTokenOk = Outcome.rejected GoError.authError) :=
  tokenRoute_revocation_gate envGood ahToken reqTokenOk [1, 2, 3] certOk
    rfl rfl rfl (by decide) (by decide) rfl (by decide)

/-- On the token path, once the body has been read successfully, the
request `serveHTTP` leaves behind carries the read bytes as a fresh
unconsumed body, on every branch after the read — verification failure,
lookup failure, wrong record count, bad status, and success alike. -/
theorem serveHTTP_token_body_restored (env : Env) (ah : copAuthHandler)
    (r : Request) (bs : List Nat)
    (ht : ah.token = true) (ha : env.Authentication = true)
    (hh : r.authHdr ≠ "") (hp : env.BasicAuth r.authHdr = none)
    (hbody : r.body.content = Except.ok bs) :
    (ah.serveHTTP env r).2 =
      { r with body := { content := Except.ok bs, consumed := false } } := by
  cases hv : env.VerifyToken r.authHdr bs with
  | error e =>
    simp [copAuthHandler.serveHTTP, ha, hh, hp, ht, hbody, hv]
  | ok cert =>
    cases hg : env.GetCertificate (toString cert.serialNumber)
        (hexEncodeToString cert.authorityKeyId) with
    | error e =>
      simp [copAuthHandler.serveHTTP, ha, hh, hp, ht, hbody, hv, hg]
    | ok certs =>
      match certs with
      | [] =>
        simp [copAuthHandler.serveHTTP, ha, hh, hp, ht, hbody, hv, hg]
      | [c] =>
        by_cases hst : c.status = "good"
        · simp [copAuthHandler.serveHTTP, ha, hh, hp, ht, hbody, hv, hg, hst]
        · simp [copAuthHandler.serveHTTP, ha, hh, hp, ht, hbody, hv, hg, hst]
      | c :: c2 :: t =>
        simp [copAuthHandler.serveHTTP, ha, hh, hp, ht, hbody, hv, hg]

/-- C10: on the token path, whenever the body read succeeds, the gate
reassigns the buffered body to the request before token verification, so
the request retains its original body bytes — as a fresh unconsumed
stream — on every rejection path as well as on success. -/
theorem tokenRoute_body_restored_on_all_paths (env : Env) (ah : copAuthHandler)
    (r : Request) (bs : List Nat)
    (ht : ah.token = true) (ha : env.Authentication = true)
    (hh : r.authHdr ≠ "") (hp : env.BasicAuth r.authHdr = none)
    (hbody : r.body.content = Except.ok bs) :
    ((ah.serveHTTP env r).2).body =
      { content := Except.ok bs, consumed := false } := by
  rw [serveHTTP_token_body_restored env ah r bs ht ha hh hp hbody]

/-- Witness: on the revoked-certificate rejection path of `envReject`,
the request still carries its original body bytes unconsumed. -/
theorem tokenRoute_body_restored_on_all_paths_witness :
    ((ahToken.serveHTTP envReject reqTokenOk).1 = some GoError.authError) ∧
    ((ahToken.serveHTTP envReject reqTokenOk).2).body =
      { content := Except.ok [1, 2, 3], consumed := false } :=
  ⟨by decide,
   tokenRoute_body_restored_on_all_paths envReject ahToken reqTokenOk [1, 2, 3]
     rfl rfl (by decide) (by decide) rfl⟩

/-- C9: on a token-only route that passes the gate, the body presented to
the next handler is exactly the byte sequence the gate read for token
verification, as a fresh unconsumed stream — body-in equals body-out. -/
theorem tokenRoute_body_roundtrip (env : Env) (ah : copAuthHandler)
    (r r1 : Request) (bs : List Nat)
    (ht : ah.token = true) (ha : env.Authentication = true)
    (hh : r.authHdr ≠ "") (hp : env.BasicAuth r.authHdr = none)
    (hbody : r.body.content = Except.ok bs)
    (hfwd : ah.ServeHTTP env r = Outcome.forwarded r1) :
    r1.body = { content := Except.ok bs, consumed := false } := by
  have h2 := serveHTTP_token_body_restored env ah r bs ht ha hh hp hbody
  unfold copAuthHandler.ServeHTTP at hfwd
  cases ho : ah.serveHTTP env r with
  | mk o r2 =>
    rw [ho] at hfwd h2
    cases o with
    | some e => exact absurd hfwd (by simp)
    | none =>
      simp only at hfwd h2
      injection hfwd with h3
      rw [← h3, h2]

/-- Witness: the successful concrete token request is forwarded with its
original body bytes unconsumed. -/
theorem tokenRoute_body_roundtrip_witness :
    (ahToken.ServeHTTP envGood reqTokenOk =
      Outcome.forwarded
        { reqTokenOk with body := { content := Except.ok [1, 2, 3], consumed := false } }) ∧
    ({ reqTokenOk with body := { content := Except.ok [1, 2, 3], consumed := false } } :
        Request).body = { content := Except.ok [1, 2, 3], consumed := false } :=
  ⟨by decide,
   tokenRoute_body_roundtrip envGood ahToken reqTokenOk
     { reqTokenOk with body := { content := Except.ok [1, 2, 3], consumed := false } }
     [1, 2, 3] rfl rfl (by decide) (by decide) rfl (by decide)⟩

/-- C3 counterexample: with a registry that rejects the basic credential
with its own error value and a store whose single record for the verified
token's certificate is revoked, two failing requests — both carrying an
authorization header — are rejected with different error values; the
registry's error crosses the gate boundary unwrapped. -/
theorem failure_errors_distinguishable :
    ahBasic.ServeHTTP envReject reqBasicOk =
      Outcome.rejected (GoError.registryError "user not found") ∧
    ahToken.ServeHTTP envReject reqTokenOk = Outcome.rejected GoError.authError ∧
    reqBasicOk.authHdr ≠ "" ∧ reqTokenOk.authHdr ≠ "" ∧
    GoError.registryError "user not found" ≠ GoError.authError := by
  refine ⟨by decide, by decide, by decide, by decide, by decide⟩

/-- C3 (amended): on a non-missing-header request, every internal failure
of the token path — unreadable body, unverifiable token, store error,
wrong record count, non-good status — collapses to the one generic
authError value; but a registry rejection of a basic credential on a
basic-only route is returned to the boundary as the registry's own error
value, unchanged. -/
theorem failure_error_values (env : Env) (ah : copAuthHandler) (r : Request)
    (ha : env.Authentication = true) (hh : r.authHdr ≠ "") :
    (env.BasicAuth r.authHdr = none → ah.token = true →
      ∀ e, (ah.serveHTTP env r).1 = some e → e = GoError.authError) ∧
    (∀ u p e, env.BasicAuth r.authHdr = some (u, p) → ah.basic = true →
      env.LoginUserBasicAuth u p = Except.error e →
      (ah.serveHTTP env r).1 = some e) := by
  constructor
  · intro hp ht e hsome
    cases hc : r.body.content with
    | error be =>
      simp [copAuthHandler.serveHTTP, ha, hh, hp, ht, hc] at hsome
      exact hsome.symm
    | ok bs =>
      cases hv : env.VerifyToken r.authHdr bs with
      | error ve =>
        simp [copAuthHandler.serveHTTP, ha, hh, hp, ht, hc, hv] at hsome
        exact hsome.symm
      | ok cert =>
        cases hg : env.GetCertificate (toString cert.serialNumber)
            (hexEncodeToString cert.authorityKeyId) with
        | error ge =>
          simp [copAuthHandler.serveHTTP, ha, hh, hp, ht, hc, hv, hg] at hsome
          exact hsome.symm
        | ok certs =>
          match certs with
          | [] =>
            simp [copAuthHandler.serveHTTP, ha, hh, hp, ht, hc, hv, hg] at hsome
            exact hsome.symm
          | [c] =>
            by_cases hst : c.status = "good"
            · simp [copAuthHandler.serveHTTP, ha, hh, hp, ht, hc, hv, hg, hst] at hsome
            · simp [copAuthHandler.serveHTTP, ha, hh, hp, ht, hc, hv, hg, hst] at hsome
              exact hsome.symm
          | c :: c2 :: t =>
            simp [copAuthHandler.serveHTTP, ha, hh, hp, ht, hc, hv, hg] at hsome
            exact hsome.symm
  · intro u p e hp hb hl
    simp [copAuthHandler.serveHTTP, ha, hh, hp, hb, hl]

/-- Witness for the amended error-value statement at the concrete
rejecting environment: the token-path rejection of the revoked
certificate is authError, and the registry's own error is what the basic
gate returns. -/
theorem failure_error_values_witness :
    ((envReject.BasicAuth reqTokenOk.authHdr = none → ahToken.token = true →
      ∀ e, (ahToken.serveHTTP envReject reqTokenOk).1 = some e →
        e = GoError.authError) ∧
    (∀ u p e, envReject.BasicAuth reqTokenOk.authHdr = some (u, p) →
      ahToken.basic = true →
      envReject.LoginUserBasicAuth u p = Except.error e →
      (ahToken.serveHTTP envReject reqTokenOk).1 = some e)) ∧
    (ahToken.serveHTTP envReject reqTokenOk).1 = some GoError.authError :=
  ⟨failure_error_values envReject ahToken reqTokenOk rfl (by decide), by decide⟩

/-- C1: contrary to the spec, a request on the basic-only "sign" route
whose authorization header is present but does not parse as HTTP Basic
credentials is not rejected — the basic-only gate built by the factory
forwards it to the next handler with no credential checked at all (the
token-verification block is guarded by the token flag, which is off, and
the function then falls through to its success return). -/
theorem signRoute_malformed_basic_forwarded :
    (NewAuthWrapper "sign" hNext none).2.1 = some ahBasic ∧
    envGood.Authentication = true ∧
    reqBearer.authHdr ≠ "" ∧
    envGood.BasicAuth reqBearer.authHdr = none ∧
    ahBasic.serveHTTP envGood reqBearer = (none, reqBearer) ∧
    ahBasic.ServeHTTP envGood reqBearer = Outcome.forwarded reqBearer := by
  refine ⟨by decide, by decide, by decide, by decide, by decide, by decide⟩

end CopAuth
